import Mathlib

set_option linter.unusedVariables false
set_option linter.unnecessarySeqFocus false

/-!
Shallow embedding of the Rust PCI binding layer (`rust/kernel/pci.rs` and
`rust/kernel/device.rs`): the PCI `Device` with its resource-claim bitmask,
the driver adapter's probe/remove dispatch, device-id matching, metadata
recovery, the refcounted device handle, and the host-status wrappers.
Machine integers are modelled as `Nat`/`Int`; raw pointers to host objects
are modelled by the state they reference (or a `Nat` address where identity
matters); fallible operations return `Option`/`Except`.
-/

namespace error

/-- Modelled from the spec: `Error` from `rust/kernel/error.rs` (not under
`src/`). The spec fixes its contract at this boundary: a negative host
status becomes "an error whose code is the negated value"; `code` holds that
positive code. -/
structure Error where
  code : Int
deriving DecidableEq, Repr

/-- Modelled from the spec: `Error::from_errno` — the error's code is the
negated host status. -/
def Error.from_errno (ret : Int) : Error :=
  ⟨-ret⟩

/-- Modelled from the spec: `Error::to_errno` — the negative status this
layer reports back to the host for an error. -/
def Error.to_errno (e : Error) : Int :=
  -e.code

end error

namespace pci

/-- Extent of one hardware resource region, as stored in the host `pci_dev`
resource array: an inclusive `[start, end]` address pair (`resource_size_t`
is modelled as `Nat`). -/
structure IoResource where
  start : Nat
  «end» : Nat
deriving DecidableEq, Repr

/-- Modelled from the spec: `io_mem::Resource` (file `rust/kernel/io_mem.rs`
is not under `src/`). Per the spec, `take_resource` on success "returns the
region's [start, end] extent", so the value is the extent itself. -/
structure Resource where
  start : Nat
  «end» : Nat
deriving DecidableEq, Repr

/-- Modelled from the spec: construction of the returned extent value
(`Resource::new` lives in `rust/kernel/io_mem.rs`, not under `src/`).
The spec says the successful result is the region's `[start, end]` extent. -/
def Resource.new (start «end» : Nat) : Option Resource :=
  some ⟨start, «end»⟩

/-- The referenced host `bindings::pci_dev` object, restricted to the fields
this layer reads: the resource-region array and the `irq` number. -/
structure pci_dev where
  resource : List IoResource
  irq : Nat
deriving DecidableEq, Repr

/-- `pci::Device`: holds the raw pointer to the host `pci_dev` (modelled by
the referenced object itself, which this layer never writes) and the 64-bit
resource-claim bitmask `res_taken` (a `u64`, modelled as `Nat`; indices used
to set bits never reach 64 because the host resource array is shorter). -/
structure Device where
  ptr : pci_dev
  res_taken : Nat
deriving DecidableEq, Repr

/-- `Device::from_ptr`: wraps a raw `pci_dev` pointer with a cleared claim
bitmask (`res_taken: 0`). -/
def Device.from_ptr (ptr : pci_dev) : Device :=
  { ptr := ptr, res_taken := 0 }

/-- `Device::take_resource`: fails (`None`) if `index` is at or beyond the
resource-array length or if bit `index` of `res_taken` is already set;
otherwise sets the bit and returns the region's extent. Rust mutates
`&mut self`; the model returns the result together with the updated device. -/
def Device.take_resource (d : Device) (index : Nat) : Option Resource × Device :=
  if index ≥ d.ptr.resource.length ∨ d.res_taken &&& (1 <<< index) ≠ 0 then
    (none, d)
  else
    let d' : Device := { d with res_taken := d.res_taken ||| (1 <<< index) }
    let r := d.ptr.resource.getD index ⟨0, 0⟩
    (Resource.new r.start r.«end», d')

/-- `Device::irq`: returns `None` when the host device reports irq 0,
otherwise the irq number. -/
def Device.irq (d : Device) : Option Nat :=
  if d.ptr.irq = 0 then none else some d.ptr.irq

/-- `Device::enable_device_mem`: wraps `pci_enable_device_mem`; the host's
status is the `hostRet` argument. Nonzero status is an error via
`from_errno`, zero is success. -/
def Device.enable_device_mem (d : Device) (hostRet : Int) : Except error.Error Unit :=
  if hostRet ≠ 0 then Except.error (error.Error.from_errno hostRet) else Except.ok ()

/-- `Device::request_selected_regions`: wraps
`pci_request_selected_regions`; nonzero status is an error, zero success. -/
def Device.request_selected_regions (d : Device) (bars : Int) (hostRet : Int) :
    Except error.Error Unit :=
  if hostRet ≠ 0 then Except.error (error.Error.from_errno hostRet) else Except.ok ()

/-- `Device::alloc_irq_vectors`: wraps `pci_alloc_irq_vectors_affinity` with
a null affinity descriptor; negative status is an error via `from_errno`,
otherwise the status is the allocated vector count (`Ok(ret as u32)`). -/
def Device.alloc_irq_vectors (d : Device) (min_vecs max_vecs flags : Nat) (hostRet : Int) :
    Except error.Error Nat :=
  if hostRet < 0 then Except.error (error.Error.from_errno hostRet) else Except.ok hostRet.toNat

/-- `Device::alloc_irq_vectors_affinity`: same status handling as
`alloc_irq_vectors`, with the `(pre, post)` partition passed to the host. -/
def Device.alloc_irq_vectors_affinity (d : Device)
    (min_vecs max_vecs pre post flags : Nat) (hostRet : Int) :
    Except error.Error Nat :=
  if hostRet < 0 then Except.error (error.Error.from_errno hostRet) else Except.ok hostRet.toNat

/-- `pci::DeviceId` — the typed identifier record. -/
structure DeviceId where
  vendor : Nat
  device : Nat
  subvendor : Nat
  subdevice : Nat
  «class» : Nat
  class_mask : Nat
deriving DecidableEq, Repr

/-- `PCI_ANY_ID`, the wildcard sentinel: `!0` as a `u32`. -/
def DeviceId.PCI_ANY_ID : Nat := 2 ^ 32 - 1

/-- `DeviceId::new` (the `PCI_DEVICE` macro): concrete vendor and device,
wildcard subsystem ids, class and mask zero. -/
def DeviceId.new (vendor device : Nat) : DeviceId :=
  { vendor := vendor
    device := device
    subvendor := DeviceId.PCI_ANY_ID
    subdevice := DeviceId.PCI_ANY_ID
    «class» := 0
    class_mask := 0 }

/-- `DeviceId::with_class` (the `PCI_DEVICE_CLASS` macro): wildcard ids,
concrete class and mask. -/
def DeviceId.with_class (cls class_mask : Nat) : DeviceId :=
  { vendor := DeviceId.PCI_ANY_ID
    device := DeviceId.PCI_ANY_ID
    subvendor := DeviceId.PCI_ANY_ID
    subdevice := DeviceId.PCI_ANY_ID
    «class» := cls
    class_mask := class_mask }

/-- `bindings::pci_device_id` — the raw record handed to the host, with the
metadata-recovery offset in `driver_data`. -/
structure pci_device_id where
  vendor : Nat
  device : Nat
  subvendor : Nat
  subdevice : Nat
  «class» : Nat
  class_mask : Nat
  driver_data : Int
  override_only : Nat
deriving DecidableEq, Repr

/-- `DeviceId::to_rawid`: copies the six id fields and stores `offset` in
`driver_data`, `override_only` zero. -/
def DeviceId.to_rawid (d : DeviceId) (offset : Int) : pci_device_id :=
  { vendor := d.vendor
    device := d.device
    subvendor := d.subvendor
    subdevice := d.subdevice
    «class» := d.«class»
    class_mask := d.class_mask
    driver_data := offset
    override_only := 0 }

/-- Identifier fields of a discovered candidate device, as the host's bus
matcher sees them. -/
structure Candidate where
  vendor : Nat
  device : Nat
  subvendor : Nat
  subdevice : Nat
  «class» : Nat
deriving DecidableEq, Repr

/-- Modelled from the spec: the host's match rule (the host bus matcher is
outside this layer). Each of the four id fields matches when the record
holds the wildcard sentinel or equals the candidate's field, and the class
matches under the record's mask:
`(candidate.class & record.class_mask) == (record.class & record.class_mask)`. -/
def DeviceId.matches (r : DeviceId) (c : Candidate) : Prop :=
  (r.vendor = DeviceId.PCI_ANY_ID ∨ c.vendor = r.vendor) ∧
  (r.device = DeviceId.PCI_ANY_ID ∨ c.device = r.device) ∧
  (r.subvendor = DeviceId.PCI_ANY_ID ∨ c.subvendor = r.subvendor) ∧
  (r.subdevice = DeviceId.PCI_ANY_ID ∨ c.subdevice = r.subdevice) ∧
  c.«class» &&& r.class_mask = r.«class» &&& r.class_mask

instance (r : DeviceId) (c : Candidate) : Decidable (r.matches c) := by
  unfold DeviceId.matches
  infer_instance

/-- Modelled from the spec: the table builder (`IdArray::new` in
`rust/kernel/driver.rs`, not under `src/`) emits the raw records in
declaration order, embedding in each record the offset that identifies its
position in the table (spec: "store the record's position at table-build
time and recover metadata via direct indexed lookup"). `pos` is the position
of the first remaining entry. -/
def buildRawFrom {I : Type} (pos : Nat) : List (DeviceId × Option I) → List pci_device_id
  | [] => []
  | e :: es => e.1.to_rawid (Int.ofNat pos) :: buildRawFrom (pos + 1) es

/-- Raw id table for an entry list, positions counted from 0. -/
def buildRaw {I : Type} (entries : List (DeviceId × Option I)) : List pci_device_id :=
  buildRawFrom 0 entries

/-- Metadata recovery as performed by `Adapter::probe_callback`: read the
offset embedded in the matched raw record (`(*id).driver_data`) and access
the metadata slot at that position directly — one indexed lookup, no scan of
the table. An empty slot (`None` stored) yields `none`. -/
def metadata_for {I : Type} (entries : List (DeviceId × Option I))
    (raw : pci_device_id) : Option I :=
  match entries[raw.driver_data.toNat]? with
  | some e => e.2
  | none => none

/-- Events observable at remove dispatch, in the order
`Adapter::remove_callback` produces them: the driver's `remove`, the
`DeviceRemoval::device_remove` hook, and the destruction of the private
state. -/
inductive RemoveEvent (Data : Type) where
  | driverRemove (data : Data)
  | deviceRemove (data : Data)
  | destroy (data : Data)
deriving DecidableEq, Repr

/-- `Adapter::probe_callback`: wraps the raw device as a `Device` via
`from_ptr`, recovers the matched record's metadata through the embedded
offset, and runs the driver's `probe`. On success it stores the returned
private state into the device's drvdata slot
(`pci_set_drvdata(pdev, data.into_foreign())`) and `from_result` reports 0;
on failure `from_result` reports the error's negative status and the slot is
not written. The drvdata slot is the explicit `slot` argument; the result
pairs the returned `c_int` with the slot after the call. -/
def Adapter.probe_callback {Data IdInfo : Type}
    (probe : Device → Option IdInfo → Except error.Error Data)
    (entries : List (DeviceId × Option IdInfo))
    (pdev : pci_dev) (id : pci_device_id) (slot : Option Data) :
    Int × Option Data :=
  let dev := Device.from_ptr pdev
  let info := metadata_for entries id
  match probe dev info with
  | Except.error e => (error.Error.to_errno e, slot)
  | Except.ok data => (0, some data)

/-- `Adapter::remove_callback`: reads the drvdata pointer
(`pci_get_drvdata`), reclaims ownership of the stored private state
(`from_foreign`), invokes the driver's `remove`, then the
`DeviceRemoval::device_remove` hook, then lets the state drop. The model
returns the emitted event sequence together with the slot after ownership is
taken out; the host guarantees remove runs only after a matching successful
probe, so the slot holds a state. -/
def Adapter.remove_callback {Data : Type} (slot : Option Data) :
    List (RemoveEvent Data) × Option Data :=
  match slot with
  | some data =>
    ([RemoveEvent.driverRemove data, RemoveEvent.deviceRemove data,
      RemoveEvent.destroy data], none)
  | none => ([], none)

/-- One call into the PCI device layer. Where the operation wraps a host
call, the host's status reply is carried as data, so a list of `DeviceOp`
ranges over every possible interaction sequence. -/
inductive DeviceOp where
  | takeResource (index : Nat)
  | enableDeviceMem (hostRet : Int)
  | setMaster
  | selectBars (flags : Nat)
  | requestSelectedRegions (bars : Int) (hostRet : Int)
  | irqQuery
  | allocIrqVectors (min_vecs max_vecs flags : Nat) (hostRet : Int)
  | allocIrqVectorsAffinity (min_vecs max_vecs pre post flags : Nat) (hostRet : Int)
  | freeIrqVectors
  | requestIrq (index : Nat) (hostRet : Int)
deriving DecidableEq, Repr

/-- Effect of one layer operation on the `Device` value. Only
`take_resource` writes a field of `Device` (`res_taken`); every other
operation calls into the host through `self.ptr` and leaves the Rust value
unchanged. -/
def applyOp (d : Device) : DeviceOp → Device
  | DeviceOp.takeResource i => (d.take_resource i).2
  | DeviceOp.enableDeviceMem _ => d
  | DeviceOp.setMaster => d
  | DeviceOp.selectBars _ => d
  | DeviceOp.requestSelectedRegions _ _ => d
  | DeviceOp.irqQuery => d
  | DeviceOp.allocIrqVectors _ _ _ _ => d
  | DeviceOp.allocIrqVectorsAffinity _ _ _ _ _ _ => d
  | DeviceOp.freeIrqVectors => d
  | DeviceOp.requestIrq _ _ => d

/-- Effect of a sequence of layer operations, applied left to right. -/
def applyOps (d : Device) (ops : List DeviceOp) : Device :=
  ops.foldl applyOp d

end pci

namespace device

/-- The host's externally observable per-object reference counts, indexed by
raw `struct device` address (0 models the null pointer). -/
def Host : Type := Nat → Nat

/-- Host `get_device`: takes one more reference to the object at `p`. -/
def get_device (p : Nat) (h : Host) : Host :=
  fun q => if q = p then h q + 1 else h q

/-- Host `put_device`: releases one reference to the object at `p`. -/
def put_device (p : Nat) (h : Host) : Host :=
  fun q => if q = p then h q - 1 else h q

/-- `device::Device`: a refcounted handle holding the raw pointer. -/
structure Device where
  ptr : Nat
deriving DecidableEq, Repr

/-- `Device::new`: calls `get_device(ptr)` and returns `Self { ptr }`. The
source performs no null or validity check — non-null validity is the
caller's safety obligation on this `unsafe fn`. The model returns the handle
together with the host state after the increment. -/
def Device.new (ptr : Nat) (h : Host) : Device × Host :=
  (⟨ptr⟩, get_device ptr h)

/-- `Clone for Device`: `Self::from_dev(self)`, which is
`Device::new(self.raw_device())` — an explicit increment yielding a second
handle to the same object. -/
def Device.clone (d : Device) (h : Host) : Device × Host :=
  Device.new d.ptr h

/-- `Drop for Device`: `put_device(self.ptr)`. -/
def Device.drop (d : Device) (h : Host) : Host :=
  put_device d.ptr h

/-- `n` successive clones of `d`: the list of handles produced and the host
state after all of them. -/
def clones (d : Device) : Nat → Host → List Device × Host
  | 0, h => ([], h)
  | n + 1, h =>
    let step := d.clone h
    let rest := clones d n step.2
    (step.1 :: rest.1, rest.2)

/-- Dropping each handle of a list, in order. -/
def drops : List Device → Host → Host
  | [], h => h
  | d :: ds, h => drops ds (d.drop h)

/-- `RawDevice::dma_set_mask`: wraps `dma_set_mask` on the raw device;
nonzero host status is an error via `from_errno`, zero is success. -/
def dma_set_mask (d : Device) (mask : Nat) (hostRet : Int) : Except error.Error Unit :=
  if hostRet ≠ 0 then Except.error (error.Error.from_errno hostRet) else Except.ok ()

end device

/-! Helper lemmas shared by the claim theorems. -/

/-- Masking with the single-bit mask `1 <<< i` is nonzero exactly when bit
`i` is set. -/
theorem and_one_shiftLeft_ne_zero (a i : Nat) :
    a &&& (1 <<< i) ≠ 0 ↔ a.testBit i = true := by
  rw [Nat.one_shiftLeft, Nat.and_two_pow]
  cases h : a.testBit i <;> simp [(Nat.two_pow_pos i).ne']

/-- Setting bit `i` makes bit `i` read as set. -/
theorem testBit_or_one_shiftLeft_self (a i : Nat) :
    (a ||| (1 <<< i)).testBit i = true := by
  rw [Nat.one_shiftLeft, Nat.testBit_lor, Nat.testBit_two_pow_self, Bool.or_true]

/-- Setting bit `i` leaves every other bit as it was. -/
theorem testBit_or_one_shiftLeft_other (a i j : Nat) (h : j ≠ i) :
    (a ||| (1 <<< i)).testBit j = a.testBit j := by
  rw [Nat.one_shiftLeft, Nat.testBit_lor, Nat.testBit_two_pow_of_ne (Ne.symm h), Bool.or_false]

/-- `take_resource` rewritten with the already-claimed test expressed via
`testBit` and the extent spelled out. -/
theorem take_resource_eq (d : pci.Device) (i : Nat) :
    d.take_resource i =
      if i ≥ d.ptr.resource.length ∨ d.res_taken.testBit i = true then
        (none, d)
      else
        (some ⟨(d.ptr.resource.getD i ⟨0, 0⟩).start, (d.ptr.resource.getD i ⟨0, 0⟩).«end»⟩,
         { d with res_taken := d.res_taken ||| (1 <<< i) }) := by
  unfold pci.Device.take_resource
  simp only [pci.Resource.new, and_one_shiftLeft_ne_zero]

/-- Only `take_resource` writes `Device` state, and it can only set a bit:
one layer operation never clears a set claim bit. -/
theorem applyOp_res_taken_mono (d : pci.Device) (op : pci.DeviceOp) (i : Nat)
    (h : d.res_taken.testBit i = true) :
    (pci.applyOp d op).res_taken.testBit i = true := by
  cases op <;> simp only [pci.applyOp] <;> try exact h
  case takeResource j =>
    rw [take_resource_eq]
    by_cases hc : j ≥ d.ptr.resource.length ∨ d.res_taken.testBit j = true
    · rw [if_pos hc]; exact h
    · rw [if_neg hc]
      by_cases hij : i = j
      · subst hij; exact testBit_or_one_shiftLeft_self _ _
      · rw [testBit_or_one_shiftLeft_other _ _ _ hij]; exact h

/-! Claim theorems. -/

/-- C1: `take_resource(i)` returns `None` (and leaves the device unchanged)
when `i` is at or beyond the device's resource-region count or claim bit `i`
is already set; otherwise it sets bit `i` and returns the region's
`[start, end]` extent, and a second call on the resulting device with the
same `i` returns `None`. -/
theorem c1_take_resource_one_shot (d : pci.Device) (i : Nat) :
    (i ≥ d.ptr.resource.length ∨ d.res_taken.testBit i = true →
      d.take_resource i = (none, d)) ∧
    (i < d.ptr.resource.length → d.res_taken.testBit i = false →
      (d.take_resource i).1 =
        some ⟨(d.ptr.resource.getD i ⟨0, 0⟩).start, (d.ptr.resource.getD i ⟨0, 0⟩).«end»⟩ ∧
      (d.take_resource i).2.res_taken.testBit i = true ∧
      ((d.take_resource i).2.take_resource i).1 = none) := by
  constructor
  · intro h
    rw [take_resource_eq, if_pos h]
  · intro hlen hbit
    have hc : ¬(i ≥ d.ptr.resource.length ∨ d.res_taken.testBit i = true) := by
      push_neg
      exact ⟨Nat.lt_of_lt_of_le hlen (Nat.le_refl _), by simp [hbit]⟩
    rw [take_resource_eq, if_neg hc]
    refine ⟨rfl, testBit_or_one_shiftLeft_self _ _, ?_⟩
    rw [take_resource_eq, if_pos]
    right
    exact testBit_or_one_shiftLeft_self _ _

/-- C1 witness: on a device with one region `[3, 9]`, index 5 is refused,
index 0 yields the extent once and is refused the second time. -/
theorem c1_take_resource_one_shot_witness :
    ((pci.Device.from_ptr ⟨[⟨3, 9⟩], 0⟩).take_resource 5 =
      (none, pci.Device.from_ptr ⟨[⟨3, 9⟩], 0⟩)) ∧
    ((pci.Device.from_ptr ⟨[⟨3, 9⟩], 0⟩).take_resource 0).1 = some ⟨3, 9⟩ ∧
    ((pci.Device.from_ptr ⟨[⟨3, 9⟩], 0⟩).take_resource 0).2.res_taken.testBit 0 = true ∧
    (((pci.Device.from_ptr ⟨[⟨3, 9⟩], 0⟩).take_resource 0).2.take_resource 0).1 = none :=
  ⟨(c1_take_resource_one_shot (pci.Device.from_ptr ⟨[⟨3, 9⟩], 0⟩) 5).1 (by decide),
   (c1_take_resource_one_shot (pci.Device.from_ptr ⟨[⟨3, 9⟩], 0⟩) 0).2 (by decide) (by decide)⟩

/-- C5: a claim bit, once set, stays set under every sequence of layer
operations on the `Device` value. -/
theorem c5_res_taken_monotone (ops : List pci.DeviceOp) (d : pci.Device) (i : Nat)
    (h : d.res_taken.testBit i = true) :
    (pci.applyOps d ops).res_taken.testBit i = true := by
  induction ops generalizing d with
  | nil => exact h
  | cons op ops ih => exact ih _ (applyOp_res_taken_mono d op i h)

/-- C5 witness: bit 1 (mask 2) stays set across a take of region 0, an irq
allocation, and a vector release. -/
theorem c5_res_taken_monotone_witness :
    (pci.applyOps ⟨⟨[⟨3, 9⟩, ⟨10, 20⟩], 0⟩, 2⟩
      [pci.DeviceOp.takeResource 0, pci.DeviceOp.allocIrqVectors 1 4 0 2,
       pci.DeviceOp.freeIrqVectors]).res_taken.testBit 1 = true :=
  c5_res_taken_monotone _ _ 1 (by decide)

/-- C10: a device fresh from `from_ptr` has every claim bit clear, and a
successful `take_resource i` leaves the underlying pointer untouched, sets
bit `i`, and leaves every bit other than `i` as it was. -/
theorem c10_take_resource_frame (p : pci.pci_dev) (d d' : pci.Device) (i : Nat)
    (r : pci.Resource) (h : d.take_resource i = (some r, d')) :
    (∀ j, (pci.Device.from_ptr p).res_taken.testBit j = false) ∧
    d'.ptr = d.ptr ∧
    d'.res_taken = d.res_taken ||| (1 <<< i) ∧
    d'.res_taken.testBit i = true ∧
    (∀ j, j ≠ i → d'.res_taken.testBit j = d.res_taken.testBit j) := by
  rw [take_resource_eq] at h
  by_cases hc : i ≥ d.ptr.resource.length ∨ d.res_taken.testBit i = true
  · rw [if_pos hc] at h
    simp at h
  · rw [if_neg hc] at h
    injection h with h1 h2
    subst h2
    refine ⟨fun j => Nat.zero_testBit j, rfl, rfl, testBit_or_one_shiftLeft_self _ _,
      fun j hj => testBit_or_one_shiftLeft_other _ _ _ hj⟩

/-- C10 witness: taking region 0 on a fresh two-region device sets exactly
bit 0 and keeps the pointer. -/
theorem c10_take_resource_frame_witness :
    (∀ j, (pci.Device.from_ptr ⟨[], 0⟩).res_taken.testBit j = false) ∧
    (⟨⟨[⟨3, 9⟩, ⟨10, 20⟩], 0⟩, 1⟩ : pci.Device).ptr =
      (pci.Device.from_ptr ⟨[⟨3, 9⟩, ⟨10, 20⟩], 0⟩).ptr ∧
    (⟨⟨[⟨3, 9⟩, ⟨10, 20⟩], 0⟩, 1⟩ : pci.Device).res_taken =
      (pci.Device.from_ptr ⟨[⟨3, 9⟩, ⟨10, 20⟩], 0⟩).res_taken ||| (1 <<< 0) ∧
    (⟨⟨[⟨3, 9⟩, ⟨10, 20⟩], 0⟩, 1⟩ : pci.Device).res_taken.testBit 0 = true ∧
    (∀ j, j ≠ 0 →
      (⟨⟨[⟨3, 9⟩, ⟨10, 20⟩], 0⟩, 1⟩ : pci.Device).res_taken.testBit j =
        (pci.Device.from_ptr ⟨[⟨3, 9⟩, ⟨10, 20⟩], 0⟩).res_taken.testBit j) :=
  c10_take_resource_frame ⟨[], 0⟩ (pci.Device.from_ptr ⟨[⟨3, 9⟩, ⟨10, 20⟩], 0⟩)
    ⟨⟨[⟨3, 9⟩, ⟨10, 20⟩], 0⟩, 1⟩ 0 ⟨3, 9⟩ (by decide)

/-- C2: when the driver's `probe` fails, `probe_callback` reports that
error's negative status to the host and the drvdata slot is exactly what it
was — nothing is stored; when `probe` succeeds, the returned private state
is stored in the slot and 0 is reported. -/
theorem c2_probe_error_propagation {Data IdInfo : Type}
    (probe : pci.Device → Option IdInfo → Except error.Error Data)
    (entries : List (pci.DeviceId × Option IdInfo))
    (pdev : pci.pci_dev) (id : pci.pci_device_id) (slot : Option Data)
    (e : error.Error) (S : Data) :
    (probe (pci.Device.from_ptr pdev) (pci.metadata_for entries id) = Except.error e →
      pci.Adapter.probe_callback probe entries pdev id slot = (-e.code, slot)) ∧
    (probe (pci.Device.from_ptr pdev) (pci.metadata_for entries id) = Except.ok S →
      pci.Adapter.probe_callback probe entries pdev id slot = (0, some S)) := by
  unfold pci.Adapter.probe_callback error.Error.to_errno
  constructor <;> intro h <;> simp [h]

/-- C2 witness: a probe failing with code 5 reports -5 and leaves the empty
slot empty; a probe returning state 7 reports 0 and stores 7. -/
theorem c2_probe_error_propagation_witness :
    pci.Adapter.probe_callback (fun _ _ => Except.error ⟨5⟩)
      ([] : List (pci.DeviceId × Option Unit)) ⟨[], 0⟩ ⟨0, 0, 0, 0, 0, 0, 0, 0⟩
      (none : Option Nat) = (-5, none) ∧
    pci.Adapter.probe_callback (fun _ _ => Except.ok 7)
      ([] : List (pci.DeviceId × Option Unit)) ⟨[], 0⟩ ⟨0, 0, 0, 0, 0, 0, 0, 0⟩
      (none : Option Nat) = (0, some 7) :=
  ⟨(c2_probe_error_propagation (fun _ _ => Except.error ⟨5⟩) [] ⟨[], 0⟩
      ⟨0, 0, 0, 0, 0, 0, 0, 0⟩ none ⟨5⟩ 0).1 rfl,
   (c2_probe_error_propagation (fun _ _ => Except.ok 7) [] ⟨[], 0⟩
      ⟨0, 0, 0, 0, 0, 0, 0, 0⟩ none ⟨5⟩ 7).2 rfl⟩

/-- C3: after a probe that succeeded with state `S`, remove dispatch takes
exactly `S` out of the slot and produces, in order, the driver's `remove`,
the device-removal hook, and the destruction, each on `S`; the removal hook
fires exactly once. -/
theorem c3_remove_handoff {Data IdInfo : Type} [DecidableEq Data]
    (probe : pci.Device → Option IdInfo → Except error.Error Data)
    (entries : List (pci.DeviceId × Option IdInfo))
    (pdev : pci.pci_dev) (id : pci.pci_device_id) (slot : Option Data) (S : Data)
    (h : probe (pci.Device.from_ptr pdev) (pci.metadata_for entries id) = Except.ok S) :
    pci.Adapter.remove_callback (pci.Adapter.probe_callback probe entries pdev id slot).2 =
      ([pci.RemoveEvent.driverRemove S, pci.RemoveEvent.deviceRemove S,
        pci.RemoveEvent.destroy S], none) ∧
    ((pci.Adapter.remove_callback
        (pci.Adapter.probe_callback probe entries pdev id slot).2).1.count
      (pci.RemoveEvent.deviceRemove S)) = 1 := by
  have hslot : (pci.Adapter.probe_callback probe entries pdev id slot).2 = some S := by
    unfold pci.Adapter.probe_callback
    simp [h]
  rw [hslot]
  constructor
  · rfl
  · simp [pci.Adapter.remove_callback, List.count_cons, List.count_nil]

/-- C3 witness: a probe storing state 9 hands exactly 9 to remove dispatch,
which fires the hook once. -/
theorem c3_remove_handoff_witness :
    pci.Adapter.remove_callback
      (pci.Adapter.probe_callback (fun _ _ => Except.ok 9)
        ([] : List (pci.DeviceId × Option Unit)) ⟨[], 0⟩ ⟨0, 0, 0, 0, 0, 0, 0, 0⟩
        (none : Option Nat)).2 =
      ([pci.RemoveEvent.driverRemove 9, pci.RemoveEvent.deviceRemove 9,
        pci.RemoveEvent.destroy 9], none) ∧
    ((pci.Adapter.remove_callback
        (pci.Adapter.probe_callback (fun _ _ => Except.ok 9)
          ([] : List (pci.DeviceId × Option Unit)) ⟨[], 0⟩ ⟨0, 0, 0, 0, 0, 0, 0, 0⟩
          (none : Option Nat)).2).1.count (pci.RemoveEvent.deviceRemove 9)) = 1 :=
  c3_remove_handoff (fun _ _ => Except.ok 9) [] ⟨[], 0⟩ ⟨0, 0, 0, 0, 0, 0, 0, 0⟩ none 9 rfl

/-- C4 counterexample: `pci_enable_device_mem` reporting the positive status
1 is converted into an error by `enable_device_mem`, though the claim calls
every zero-or-positive host return a success. -/
theorem c4_counterexample :
    pci.Device.enable_device_mem (pci.Device.from_ptr ⟨[], 0⟩) 1 =
      Except.error ⟨-1⟩ := by
  rfl

/-- C4 amended: a negative host status is converted into an error whose code
is the negated value by every wrapper, and zero is success everywhere; but
only the value-returning vector-allocation wrappers treat a positive status
as success (the allocated count) — the status-only wrappers
(`enable_device_mem`, `request_selected_regions`, `dma_set_mask`) treat any
nonzero status, positive included, as an error. -/
theorem c4_status_conversion (d : pci.Device) (dh : device.Device)
    (bars : Int) (min_vecs max_vecs pre post flags mask : Nat) (ret : Int) :
    (ret < 0 →
      pci.Device.enable_device_mem d ret = Except.error ⟨-ret⟩ ∧
      pci.Device.request_selected_regions d bars ret = Except.error ⟨-ret⟩ ∧
      device.dma_set_mask dh mask ret = Except.error ⟨-ret⟩ ∧
      pci.Device.alloc_irq_vectors d min_vecs max_vecs flags ret = Except.error ⟨-ret⟩ ∧
      pci.Device.alloc_irq_vectors_affinity d min_vecs max_vecs pre post flags ret =
        Except.error ⟨-ret⟩) ∧
    (ret = 0 →
      pci.Device.enable_device_mem d ret = Except.ok () ∧
      pci.Device.request_selected_regions d bars ret = Except.ok () ∧
      device.dma_set_mask dh mask ret = Except.ok () ∧
      pci.Device.alloc_irq_vectors d min_vecs max_vecs flags ret = Except.ok 0 ∧
      pci.Device.alloc_irq_vectors_affinity d min_vecs max_vecs pre post flags ret =
        Except.ok 0) ∧
    (0 < ret →
      pci.Device.alloc_irq_vectors d min_vecs max_vecs flags ret = Except.ok ret.toNat ∧
      pci.Device.alloc_irq_vectors_affinity d min_vecs max_vecs pre post flags ret =
        Except.ok ret.toNat ∧
      pci.Device.enable_device_mem d ret = Except.error (error.Error.from_errno ret) ∧
      pci.Device.request_selected_regions d bars ret =
        Except.error (error.Error.from_errno ret) ∧
      device.dma_set_mask dh mask ret = Except.error (error.Error.from_errno ret)) := by
  unfold pci.Device.enable_device_mem pci.Device.request_selected_regions
    device.dma_set_mask pci.Device.alloc_irq_vectors pci.Device.alloc_irq_vectors_affinity
    error.Error.from_errno
  refine ⟨fun h => ?_, fun h => ?_, fun h => ?_⟩
  · have hne : ret ≠ 0 := Int.ne_of_lt h
    simp [hne, h]
  · subst h
    simp
  · have hne : ret ≠ 0 := Int.ne_of_gt h
    have hnneg : ¬ret < 0 := Int.not_lt.mpr (Int.le_of_lt h)
    simp [hne, hnneg]

/-- C4 witness: status -3 gives error code 3 everywhere, status 0 succeeds,
status 2 allocates 2 vectors but is rejected by `enable_device_mem`,
`request_selected_regions`, and `dma_set_mask`. -/
theorem c4_status_conversion_witness :
    pci.Device.enable_device_mem (pci.Device.from_ptr ⟨[], 0⟩) (-3) = Except.error ⟨3⟩ ∧
    pci.Device.alloc_irq_vectors (pci.Device.from_ptr ⟨[], 0⟩) 1 4 0 (-3) =
      Except.error ⟨3⟩ ∧
    pci.Device.enable_device_mem (pci.Device.from_ptr ⟨[], 0⟩) 0 = Except.ok () ∧
    pci.Device.alloc_irq_vectors (pci.Device.from_ptr ⟨[], 0⟩) 1 4 0 2 = Except.ok 2 ∧
    pci.Device.enable_device_mem (pci.Device.from_ptr ⟨[], 0⟩) 2 =
      Except.error (error.Error.from_errno 2) ∧
    pci.Device.request_selected_regions (pci.Device.from_ptr ⟨[], 0⟩) 0 2 =
      Except.error (error.Error.from_errno 2) ∧
    device.dma_set_mask ⟨1⟩ 0 2 = Except.error (error.Error.from_errno 2) :=
  ⟨((c4_status_conversion (pci.Device.from_ptr ⟨[], 0⟩) ⟨1⟩ 0 1 4 0 0 0 0 (-3)).1
      (by decide)).1,
   ((c4_status_conversion (pci.Device.from_ptr ⟨[], 0⟩) ⟨1⟩ 0 1 4 0 0 0 0 (-3)).1
      (by decide)).2.2.2.1,
   ((c4_status_conversion (pci.Device.from_ptr ⟨[], 0⟩) ⟨1⟩ 0 1 4 0 0 0 0 0).2.1
      (by decide)).1,
   ((c4_status_conversion (pci.Device.from_ptr ⟨[], 0⟩) ⟨1⟩ 0 1 4 0 0 0 0 2).2.2
      (by decide)).1,
   ((c4_status_conversion (pci.Device.from_ptr ⟨[], 0⟩) ⟨1⟩ 0 1 4 0 0 0 0 2).2.2
      (by decide)).2.2.1,
   ((c4_status_conversion (pci.Device.from_ptr ⟨[], 0⟩) ⟨1⟩ 0 1 4 0 0 0 0 2).2.2
      (by decide)).2.2.2.1,
   ((c4_status_conversion (pci.Device.from_ptr ⟨[], 0⟩) ⟨1⟩ 0 1 4 0 0 0 0 2).2.2
      (by decide)).2.2.2.2⟩

/-- C6 counterexample: `Device::new` called on the null pointer (address 0)
does not fail — it increments the host refcount at address 0 (from 5 to 6)
and returns an owning handle for it, exactly as for any other address. -/
theorem c6_counterexample :
    ((device.Device.new 0 (fun _ => 5)).2) 0 = 6 ∧
    (device.Device.new 0 (fun _ => 5)).1 = ⟨0⟩ := by
  constructor <;> rfl

/-- C6 amended: `new(raw_ref)` performs no null check; null validity is the
caller's obligation on this unchecked boundary constructor. For every
`raw_ref` it increments the host refcount at `raw_ref` by one, leaves every
other count unchanged, and returns an owning handle for `raw_ref`. -/
theorem c6_new_unchecked_increment (p : Nat) (h : device.Host) :
    ((device.Device.new p h).2) p = h p + 1 ∧
    (∀ q, q ≠ p → ((device.Device.new p h).2) q = h q) ∧
    (device.Device.new p h).1.ptr = p := by
  refine ⟨?_, fun q hq => ?_, rfl⟩
  · simp [device.Device.new, device.get_device]
  · simp [device.Device.new, device.get_device, hq]

/-- C6 amended witness: at address 3 with all counts 5, `new` yields count 6
at 3, count 5 elsewhere, and a handle for 3. -/
theorem c6_new_unchecked_increment_witness :
    ((device.Device.new 3 (fun _ => 5)).2) 3 = 6 ∧
    (∀ q, q ≠ 3 → ((device.Device.new 3 (fun _ => 5)).2) q = 5) ∧
    (device.Device.new 3 (fun _ => 5)).1.ptr = 3 :=
  c6_new_unchecked_increment 3 (fun _ => 5)

/-- The handles produced by `n` clones are `n` copies of a handle for the
cloned handle's object. -/
theorem clones_handles (d : device.Device) (n : Nat) (h : device.Host) :
    (device.clones d n h).1 = List.replicate n ⟨d.ptr⟩ := by
  induction n generalizing h with
  | zero => rfl
  | succ n ih =>
    simp [device.clones, device.Device.clone, device.Device.new, ih, List.replicate_succ]

/-- The host state after `n` clones: the cloned object's count grows by `n`,
every other count is unchanged. -/
theorem clones_host (d : device.Device) (n : Nat) (h : device.Host) (q : Nat) :
    ((device.clones d n h).2) q = if q = d.ptr then h q + n else h q := by
  induction n generalizing h with
  | zero => simp [device.clones]
  | succ n ih =>
    show ((device.clones d n (d.clone h).2).2) q = _
    rw [ih]
    show (if q = d.ptr then device.get_device d.ptr h q + n else device.get_device d.ptr h q) = _
    unfold device.get_device
    by_cases hq : q = d.ptr <;> simp [hq] <;> try omega

/-- Dropping `n` handles of the same object decrements its count by `n` and
leaves every other count unchanged. -/
theorem drops_replicate (p n : Nat) (h : device.Host) (q : Nat) :
    device.drops (List.replicate n ⟨p⟩) h q = if q = p then h q - n else h q := by
  induction n generalizing h with
  | zero => simp [device.drops]
  | succ n ih =>
    rw [List.replicate_succ]
    show device.drops (List.replicate n ⟨p⟩) ((device.Device.mk p).drop h) q = _
    rw [ih]
    show (if q = p then device.put_device p h q - n else device.put_device p h q) = _
    unfold device.put_device
    by_cases hq : q = p <;> simp [hq] <;> try omega

/-- C7: `clone` increments the cloned object's refcount by exactly one,
touches no other count, and returns a second handle to the same object;
`drop` decrements by exactly one; and `n` clones followed by dropping the
`n` produced handles restores every host refcount to its value before the
clones. -/
theorem c7_clone_drop_roundtrip (d : device.Device) (h : device.Host) (n q : Nat) :
    ((d.clone h).2) d.ptr = h d.ptr + 1 ∧
    (∀ r, r ≠ d.ptr → ((d.clone h).2) r = h r) ∧
    (d.clone h).1.ptr = d.ptr ∧
    (d.drop h) d.ptr = h d.ptr - 1 ∧
    device.drops (device.clones d n h).1 ((device.clones d n h).2) q = h q := by
  refine ⟨?_, fun r hr => ?_, rfl, ?_, ?_⟩
  · simp [device.Device.clone, device.Device.new, device.get_device]
  · simp [device.Device.clone, device.Device.new, device.get_device, hr]
  · simp [device.Device.drop, device.put_device]
  · rw [clones_handles, drops_replicate]
    by_cases hq : q = d.ptr
    · rw [if_pos hq, clones_host, if_pos hq]
      omega
    · rw [if_neg hq, clones_host, if_neg hq]

/-- C7 witness: with all counts 5, cloning the handle for address 2 gives
count 6 there and 5 elsewhere; a drop gives 4; three clones followed by
dropping the three handles is back at 5. -/
theorem c7_clone_drop_roundtrip_witness :
    (((device.Device.mk 2).clone (fun _ => 5)).2) 2 = 6 ∧
    (∀ r, r ≠ 2 → (((device.Device.mk 2).clone (fun _ => 5)).2) r = 5) ∧
    ((device.Device.mk 2).clone (fun _ => 5)).1.ptr = 2 ∧
    ((device.Device.mk 2).drop (fun _ => 5)) 2 = 4 ∧
    device.drops (device.clones ⟨2⟩ 3 (fun _ => 5)).1
      ((device.clones ⟨2⟩ 3 (fun _ => 5)).2) 2 = 5 :=
  c7_clone_drop_roundtrip ⟨2⟩ (fun _ => 5) 3 2

/-- C8: a `DeviceId::new` record (vendor `V`, device `D`) matches every
candidate agreeing on vendor and device, whatever its subsystem ids and
class; a `DeviceId::with_class` record matches a candidate exactly when the
candidate's class agrees with the record's class under the mask. -/
theorem c8_id_matching (V D cls mask : Nat) (c : pci.Candidate) :
    (c.vendor = V → c.device = D → (pci.DeviceId.new V D).matches c) ∧
    ((pci.DeviceId.with_class cls mask).matches c ↔
      c.«class» &&& mask = cls &&& mask) := by
  constructor
  · intro hv hd
    exact ⟨Or.inr hv, Or.inr hd, Or.inl rfl, Or.inl rfl, by
      simp [pci.DeviceId.new, Nat.and_zero, Nat.zero_and]⟩
  · unfold pci.DeviceId.matches pci.DeviceId.with_class
    simp

/-- C8 witness: `new(0x10, 0x20)` matches a candidate with those ids and
arbitrary subsystem/class fields; `with_class(6, 3)` matches a candidate of
class 7 exactly when `7 &&& 3 = 6 &&& 3` (which is false here: 3 vs 2, so
this candidate does not match). -/
theorem c8_id_matching_witness :
    (pci.DeviceId.new 16 32).matches ⟨16, 32, 11, 22, 33⟩ ∧
    ((pci.DeviceId.with_class 6 3).matches ⟨1, 2, 3, 4, 7⟩ ↔ 7 &&& 3 = 6 &&& 3) :=
  ⟨(c8_id_matching 16 32 6 3 ⟨16, 32, 11, 22, 33⟩).1 rfl rfl,
   (c8_id_matching 16 32 6 3 ⟨1, 2, 3, 4, 7⟩).2⟩

/-- The raw table built starting at position `k` holds, at index `i`, the
raw form of entry `i` with offset `k + i`. -/
theorem buildRawFrom_getElem {I : Type} (entries : List (pci.DeviceId × Option I))
    (k i : Nat) :
    (pci.buildRawFrom k entries)[i]? =
      (entries[i]?).map fun e => e.1.to_rawid (Int.ofNat (k + i)) := by
  induction entries generalizing k i with
  | nil => simp [pci.buildRawFrom]
  | cons e es ih =>
    cases i with
    | zero => simp [pci.buildRawFrom]
    | succ i =>
      rw [show pci.buildRawFrom k (e :: es) =
            e.1.to_rawid (Int.ofNat k) :: pci.buildRawFrom (k + 1) es from rfl,
        List.getElem?_cons_succ, List.getElem?_cons_succ, ih]
      have harith : k + 1 + i = k + (i + 1) := by omega
      rw [harith]

/-- C9: in the raw table built from `entries`, the record at position `i`
embeds offset `i`, and metadata recovery through that embedded offset is one
direct indexed lookup returning exactly entry `i`'s metadata slot — `none`
when the slot is empty, never an error. -/
theorem c9_metadata_recovery {I : Type} (entries : List (pci.DeviceId × Option I))
    (i : Nat) (entry : pci.DeviceId × Option I) (h : entries[i]? = some entry) :
    (pci.buildRaw entries)[i]? = some (entry.1.to_rawid (Int.ofNat i)) ∧
    pci.metadata_for entries (entry.1.to_rawid (Int.ofNat i)) = entry.2 := by
  constructor
  · rw [pci.buildRaw, buildRawFrom_getElem, h]
    simp
  · unfold pci.metadata_for pci.DeviceId.to_rawid
    simp [h]

/-- C9 witness: in a two-entry table, the record at position 1 carries
offset 1 and its empty metadata slot is recovered as `none`; the record at
position 0 recovers its metadata 7. -/
theorem c9_metadata_recovery_witness :
    ((pci.buildRaw [(pci.DeviceId.new 16 32, some 7), (pci.DeviceId.with_class 6 3, none)])[1]? =
      some ((pci.DeviceId.with_class 6 3).to_rawid (Int.ofNat 1)) ∧
    pci.metadata_for [(pci.DeviceId.new 16 32, some 7), (pci.DeviceId.with_class 6 3, none)]
      ((pci.DeviceId.with_class 6 3).to_rawid (Int.ofNat 1)) = none) ∧
    pci.metadata_for [(pci.DeviceId.new 16 32, some 7), (pci.DeviceId.with_class 6 3, none)]
      ((pci.DeviceId.new 16 32).to_rawid (Int.ofNat 0)) = some 7 :=
  ⟨c9_metadata_recovery [(pci.DeviceId.new 16 32, some 7), (pci.DeviceId.with_class 6 3, none)]
      1 (pci.DeviceId.with_class 6 3, none) rfl,
   (c9_metadata_recovery [(pci.DeviceId.new 16 32, some 7), (pci.DeviceId.with_class 6 3, none)]
      0 (pci.DeviceId.new 16 32, some 7) rfl).2⟩
